import Mathlib

/-!
Verification of the ms-adjunct session/token lifecycle against its
specification.  The definitions below are a shallow embedding of the
TypeScript sources: the Adjunct Graph generation of the library
(class Authentication in src/auth/Authentication.ts, class Graph in
src/graph/Graph.ts, class Appoint in src/app/Appoint.ts, the constants in
src/utility/Constants.ts and the error tables in src/error).  Browser
storage is modelled as an association list of string keys to string
values; the MSAL identity-provider client and the HTTP fetch layer are
modelled as an oracle environment (structure Env) fixing their responses;
asynchronous functions become explicit state passing, and every
provider-facing action and storage write is recorded in an event trace so
that temporal statements (which calls happened, in which order) can be
proved.  Promise rejection values become an explicit error type ErrVal.
The mutually recursive login / getToken cluster is defined with an
explicit fuel parameter; running out of fuel is the distinguished error
ErrVal.fuelOut and models divergence of the unbounded mutual recursion,
which no claim below depends on.
-/

/-- One identity-provider account, named by its opaque identifier
(field homeAccountId of the msal-browser AccountInfo object).  Only the
identifier is relevant to the modelled code. -/
structure AccountInfo where
  homeAccountId : String
deriving DecidableEq, Repr

/-- An msal-browser AuthenticationResult as far as the modelled code
inspects it: the (possibly null) account, the access token, and the
optional roles claim of the identity token (field idTokenClaims.roles). -/
structure AuthResult where
  account : Option AccountInfo
  accessToken : String
  roles : Option (List String)
deriving DecidableEq, Repr

/-- An error raised by the MSAL provider.  interactionRequired models an
InteractionRequiredAuthError carrying its errorCode string; other models
any error that is not an InteractionRequiredAuthError. -/
inductive MsalErr where
  | interactionRequired (errorCode : String)
  | other (tag : String)
deriving DecidableEq, Repr

/-- enum SignInMethod of src/utility/Constants.ts
(REDIRECT = "redirect", POPUP = "popup"). -/
inductive SignInMethod where
  | redirect
  | popup
deriving DecidableEq, Repr

/-- enum GraphErrorCode of src/utility/Constants.ts. -/
def GraphErrorCode.MISSING_PERMISSION : String := "invalid_grant"

/-- enum GraphErrorCode of src/utility/Constants.ts. -/
def GraphErrorCode.EXPIRED_TOKEN : String := "interaction_required"

/-- enum GraphErrorCode of src/utility/Constants.ts. -/
def GraphErrorCode.REQUEST_DENIED : String := "Authorization_RequestDenied"

/-- enum GraphErrorCode of src/utility/Constants.ts. -/
def GraphErrorCode.ACCESS_DENIED : String := "accessDenied"

/-- enum GraphErrorCode of src/utility/Constants.ts. -/
def GraphErrorCode.ERROR_ACCESS_DENIED : String := "ErrorAccessDenied"

/-- enum AdjunctStorageKey of src/utility/Constants.ts. -/
def AdjunctStorageKey.ADJUNCT_ACCOUNT_HOMEACCOUNTID : String :=
  "msAdjunct.Account.homeAccountId"

/-- enum AdjunctStorageKey of src/utility/Constants.ts. -/
def AdjunctStorageKey.ADJUNCT_ACCOUNT_ROLES : String :=
  "msAdjunct.Account.Roles"

/-- enum AdjunctStorageKey of src/utility/Constants.ts. -/
def AdjunctStorageKey.ADJUNCT_TOKEN_LOGIN_REQUIRED : String :=
  "msAdjunct.Token.Login_Required"

/-- enum URL of src/utility/Constants.ts, member GRAPH_API_BASE. -/
def URL.GRAPH_API_BASE : String := "https://graph.microsoft.com"

/-- The taxonomy entries of AuthenticationErrorMessage
(src/error/AuthenticationError.ts).  Each entry in the source is a
structured literal with a code and a desc string; the entries are
identified here by constructor, with AuthErr.code giving the code
string.  The desc strings never influence control flow and are omitted. -/
inductive AuthErr where
  | signInMethodUnknown
  | signInErrorUnknown
  | getTokenMissingPermissionScope
  | getTokenAuthenticationRequired
  | getTokenNotLoggedIn
  | processLoginMultipleAccountError
  | processLoginNoAccounts
deriving DecidableEq, Repr

/-- The code field of each AuthenticationErrorMessage entry. -/
def AuthErr.code : AuthErr → String
  | .signInMethodUnknown => "auth_signInMethod_unknown"
  | .signInErrorUnknown => "auth_signIn_error_unknown"
  | .getTokenMissingPermissionScope => "auth_getToken_missing_permission_scope"
  | .getTokenAuthenticationRequired => "auth_getToken_authentication_required"
  | .getTokenNotLoggedIn => "auth_getToken_not_logged_in"
  | .processLoginMultipleAccountError => "auth_multiple_account_error"
  | .processLoginNoAccounts => "auth_no_accounts"

/-- The taxonomy entries of GraphErrorMessage (src/error/GraphError.ts). -/
inductive GraphErr where
  | getRequestDenied
  | getAccessDenied
  | getUnknownError
  | endPointInvalid
  | batchRequestLimit
  | requestTypeInvalid
deriving DecidableEq, Repr

/-- The code field of each GraphErrorMessage entry. -/
def GraphErr.code : GraphErr → String
  | .getRequestDenied => "graph_request_denied"
  | .getAccessDenied => "graph_access_denied"
  | .getUnknownError => "graph_unknown_error"
  | .endPointInvalid => "graph_endPoint_invalid"
  | .batchRequestLimit => "graph_batch_request_limit"
  | .requestTypeInvalid => "graph_call_request_invalid"

/-- The taxonomy entries of AppointErrorMessage
(src/error/AppointError.ts). -/
inductive AppointErr where
  | notLoggedIn
deriving DecidableEq, Repr

/-- The code field of each AppointErrorMessage entry. -/
def AppointErr.code : AppointErr → String
  | .notLoggedIn => "appoint_not_logged_in"

/-- One sub-request of a Graph batch request (type Request of
src/types/BatchRequest.ts, restricted to the fields the modelled code
constructs and reads). -/
structure BatchSubRequest where
  id : String
  method : String
  url : String
deriving DecidableEq, Repr

/-- type BatchRequest of src/types/BatchRequest.ts. -/
structure BatchRequest where
  requests : List BatchSubRequest
deriving DecidableEq, Repr

/-- One entry of the responses array of a Graph batch response body. -/
structure BatchSubResponse where
  id : String
  status : Nat
  body : String
deriving DecidableEq, Repr

/-- The JSON body of a fetch response, as far as the modelled code reads
it: the provider error code at error.code if an error member is present,
the responses array of a batch response if present, and the remaining
payload kept opaque. -/
structure GraphBody where
  errorCode : Option String
  responses : Option (List BatchSubResponse)
  raw : String
deriving DecidableEq, Repr

/-- The fetch Request object as far as the modelled code constructs and
uses it: the URL, the HTTP method, and the structured batch body when one
is attached (the source serialises the batch body with JSON.stringify;
the embedding carries the structured value). -/
structure FetchRequest where
  url : String
  method : String
  body : Option BatchRequest
deriving DecidableEq, Repr

/-- A Promise rejection value as observed by callers of the modelled
code.  The source rejects with taxonomy entries, with spread objects of
the shape (error, code, desc) wrapping an inner failure or a response
body, with raw MSAL errors, with raw callback errors, with runtime
TypeError (reading a member of undefined), or with raw fetch-layer
exceptions. -/
inductive ErrVal where
  | auth (m : AuthErr)
  | graph (m : GraphErr)
  | appoint (m : AppointErr)
  | wrappedAuth (inner : ErrVal) (m : AuthErr)
  | wrappedGraph (inner : ErrVal) (m : GraphErr)
  | wrappedBody (body : GraphBody) (m : GraphErr)
  | msal (e : MsalErr)
  | exn (tag : String)
  | cbFail (tag : String)
  | typeError
  | fuelOut
deriving DecidableEq, Repr

/-- The provider-facing actions and storage writes the modelled code
performs, recorded chronologically in the state trace. -/
inductive Event where
  | handleRedirect
  | msalLoginRedirect (scopes : List String)
  | msalLoginPopup (scopes : List String)
  | acquireTokenSilent (accountId : String) (scopes : List String)
  | setActiveAccount (accountId : String)
  | multiAccountCallback
  | fetchCall (url : String) (method : String)
  | storeSet (key : String) (value : String)
  | storeRemove (key : String)
deriving DecidableEq, Repr

/-- Browser storage contents: an association list from keys to values,
newest binding first. -/
def Store := List (String × String)

instance : DecidableEq Store := inferInstanceAs (DecidableEq (List (String × String)))

/-- BrowserStorage.getItem (src/storage/BrowserStorage.ts): the value
bound to the key, or null. -/
def Store.getItem (st : Store) (k : String) : Option String :=
  (st.find? (fun p => p.1 == k)).map (fun p => p.2)

/-- BrowserStorage.setItem: bind the key to the value, replacing any
previous binding. -/
def Store.setItem (st : Store) (k v : String) : Store :=
  (k, v) :: st.filter (fun p => p.1 != k)

/-- BrowserStorage.removeItem: delete the binding of the key. -/
def Store.removeItem (st : Store) (k : String) : Store :=
  st.filter (fun p => p.1 != k)

/-- The mutable world the modelled code acts on: the browser storage and
the chronological trace of provider actions and storage writes. -/
structure St where
  store : Store
  trace : List Event
deriving DecidableEq

/-- Record one provider-facing event. -/
def St.event (s : St) (e : Event) : St :=
  { s with trace := s.trace ++ [e] }

/-- Storage write, recorded in the trace. -/
def St.set (s : St) (k v : String) : St :=
  { store := s.store.setItem k v, trace := s.trace ++ [Event.storeSet k v] }

/-- Storage removal, recorded in the trace. -/
def St.remove (s : St) (k : String) : St :=
  { store := s.store.removeItem k, trace := s.trace ++ [Event.storeRemove k] }

/-- The validated settings object (type Settings of
src/config/Settings.ts) restricted to the fields the modelled code
reads: the sign-in method, the two scope lists, and the Graph version
segment interpolated into request URLs. -/
structure Settings where
  signInMethod : SignInMethod
  appPermissions : List String
  graphPermissions : List String
  graphVersion : String

/-- The oracle environment fixing the responses of the external
collaborators: the MSAL client (handleRedirectPromise, loginPopup,
getAllAccounts, getAccountByHomeId, acquireTokenSilent), the
application-supplied multi-account selection callback, and the HTTP
fetch layer.  An Except.error response models the corresponding promise
rejecting or call throwing. -/
structure Env where
  handleRedirect : Except MsalErr (Option AuthResult)
  popupResult : Except MsalErr AuthResult
  allAccounts : List AccountInfo
  accountById : String → Option AccountInfo
  silent : AccountInfo → List String → Except MsalErr AuthResult
  callback : List AccountInfo → Except String AccountInfo
  fetch : FetchRequest → Except String (Nat × GraphBody)

/-- enum TokenType of src/utility/Constants.ts
(APP = "app", GRAPH = "graph"). -/
inductive TokenType where
  | app
  | graph
deriving DecidableEq, Repr

/-- Authentication.getLoggedInAccount: read the stored homeAccountId and,
if present, ask the provider for the matching account. -/
def getLoggedInAccount (env : Env) (s : St) : Option AccountInfo :=
  match s.store.getItem AdjunctStorageKey.ADJUNCT_ACCOUNT_HOMEACCOUNTID with
  | some id => env.accountById id
  | none => none

/-- Authentication.clearStorage: remove the three Adjunct keys. -/
def clearStorage (s : St) : St :=
  ((s.remove AdjunctStorageKey.ADJUNCT_ACCOUNT_HOMEACCOUNTID).remove
      AdjunctStorageKey.ADJUNCT_ACCOUNT_ROLES).remove
    AdjunctStorageKey.ADJUNCT_TOKEN_LOGIN_REQUIRED

/-- The serialisation JSON.stringify applied to the roles array before it
is stored; modelled as an injective flat encoding, since no modelled code
inspects the stored string beyond parsing it back. -/
def encodeRoles (rs : List String) : String :=
  String.intercalate "," rs

/-- The parse JSON.parse applied to the stored roles string
(Appoint.setUserProfile); modelled as the inverse of the flat encoding
used by registerAccount. -/
def parseRoles (s : String) : List String :=
  s.splitOn ","

/-- Authentication.registerAccount: store the homeAccountId of the
account carried by the result, and the roles claim when one is present.
The source guards with (typeof authResult.account !== null), which is
always true because typeof yields a string, and then dereferences
authResult.account with a non-null assertion that is erased at runtime;
when the result carries no account this access throws a TypeError before
any write happens, modelled as Except.error typeError with the store
untouched. -/
def registerAccount (ar : AuthResult) (s : St) : Except ErrVal St :=
  match ar.account with
  | some a =>
    let s := s.set AdjunctStorageKey.ADJUNCT_ACCOUNT_HOMEACCOUNTID a.homeAccountId
    match ar.roles with
    | some rs => Except.ok (s.set AdjunctStorageKey.ADJUNCT_ACCOUNT_ROLES (encodeRoles rs))
    | none => Except.ok s
  | none => Except.error ErrVal.typeError

/-- The value (set as AuthenticationResult) returned by loginRedirect
after firing the redirect navigation. -/
def emptyAuthResult : AuthResult :=
  { account := none, accessToken := "", roles := none }

deriving instance DecidableEq for Except

/-- The scope list Authentication.getToken selects for the requested
token type: graphPermissions by default, switched to appPermissions when
the token type is APP. -/
def requestScopeFor (ctx : Settings) (t : TokenType) : List String :=
  match t with
  | .app => ctx.appPermissions
  | .graph => ctx.graphPermissions

mutual

/-- Authentication.login: dispatch on the configured sign-in method.  The
signInMethodUnknown throw of the source is unreachable because the
SignInMethod enum has exactly the two members modelled here. -/
def login (fuel : Nat) (env : Env) (ctx : Settings) (s : St) :
    Except ErrVal AuthResult × St :=
  match fuel with
  | 0 => (Except.error ErrVal.fuelOut, s)
  | f + 1 =>
    match ctx.signInMethod with
    | .redirect => loginRedirect f env ctx s
    | .popup => loginPopup f env ctx s

/-- Authentication.loginRedirect.  A throw of handleRedirectPromise is
caught by the catch clause and wrapped into signInErrorUnknown; the
returned promises of processLoginResult and getToken are returned
without await, so their rejections propagate unwrapped. -/
def loginRedirect (fuel : Nat) (env : Env) (ctx : Settings) (s : St) :
    Except ErrVal AuthResult × St :=
  match fuel with
  | 0 => (Except.error ErrVal.fuelOut, s)
  | f + 1 =>
    match env.handleRedirect with
    | Except.error e =>
        (Except.error (ErrVal.wrappedAuth (ErrVal.msal e) AuthErr.signInErrorUnknown),
         s.event Event.handleRedirect)
    | Except.ok r =>
      let s := s.event Event.handleRedirect
      match r with
      | some redirectAuthResult => processLoginResult f env ctx s redirectAuthResult
      | none =>
        let foundAccount := getLoggedInAccount env s
        if foundAccount = none ∨ (foundAccount ≠ none ∧
            s.store.getItem AdjunctStorageKey.ADJUNCT_TOKEN_LOGIN_REQUIRED = some "yes") then
          let s := clearStorage s
          let s := s.event (Event.msalLoginRedirect ctx.appPermissions)
          (Except.ok emptyAuthResult, s)
        else
          getToken f env ctx s TokenType.app true

/-- Authentication.loginPopup.  A rejection of the awaited msal loginPopup
call is caught and wrapped into signInErrorUnknown; the promise of
processLoginResult and of getToken is returned without await, so their
rejections propagate unwrapped. -/
def loginPopup (fuel : Nat) (env : Env) (ctx : Settings) (s : St) :
    Except ErrVal AuthResult × St :=
  match fuel with
  | 0 => (Except.error ErrVal.fuelOut, s)
  | f + 1 =>
    let foundAccount := getLoggedInAccount env s
    if foundAccount = none ∨ (foundAccount ≠ none ∧
        s.store.getItem AdjunctStorageKey.ADJUNCT_TOKEN_LOGIN_REQUIRED = some "yes") then
      let s := clearStorage s
      let s := s.event (Event.msalLoginPopup ctx.appPermissions)
      match env.popupResult with
      | Except.error e =>
          (Except.error (ErrVal.wrappedAuth (ErrVal.msal e) AuthErr.signInErrorUnknown), s)
      | Except.ok authResult => processLoginResult f env ctx s authResult
    else
      getToken f env ctx s TokenType.app true

/-- Authentication.processLoginResult.  The length checks of the source
(=== 1, > 1, fall-through throw for < 1) are rendered as a match on the
account list.  In the multi-account branch a rejection of the awaited
selection callback is caught by the outer catch and replaced by
processLoginMultipleAccountError, while a rejection of the confirming
getToken call is returned without await and therefore propagates raw.
A TypeError thrown by registerAccount in the inline-account branch is
outside any try and rejects the promise raw; in the single- and
multi-account branches it is caught by the inner catch, which also
rejects with it unchanged. -/
def processLoginResult (fuel : Nat) (env : Env) (ctx : Settings) (s : St)
    (authResult : AuthResult) : Except ErrVal AuthResult × St :=
  match fuel with
  | 0 => (Except.error ErrVal.fuelOut, s)
  | f + 1 =>
    let s := s.set AdjunctStorageKey.ADJUNCT_TOKEN_LOGIN_REQUIRED "yes"
    match authResult.account with
    | some _ =>
      match registerAccount authResult s with
      | Except.error e => (Except.error e, s)
      | Except.ok s =>
        let s := s.set AdjunctStorageKey.ADJUNCT_TOKEN_LOGIN_REQUIRED "no"
        (Except.ok authResult, s)
    | none =>
      match env.allAccounts with
      | [] => (Except.error (ErrVal.auth AuthErr.processLoginNoAccounts), s)
      | [a] =>
        let s := s.event (Event.setActiveAccount a.homeAccountId)
        match getToken f env ctx s TokenType.app false with
        | (Except.ok resultToken, s) =>
          match registerAccount resultToken s with
          | Except.error e => (Except.error e, s)
          | Except.ok s =>
            let s := s.set AdjunctStorageKey.ADJUNCT_TOKEN_LOGIN_REQUIRED "no"
            (Except.ok resultToken, s)
        | (Except.error e, s) => (Except.error e, s)
      | a :: b :: rest =>
        let loggedInAccounts := a :: b :: rest
        match env.callback loggedInAccounts with
        | Except.error _ =>
            (Except.error (ErrVal.auth AuthErr.processLoginMultipleAccountError),
             s.event Event.multiAccountCallback)
        | Except.ok selectedAccount =>
          let s := s.event Event.multiAccountCallback
          let s := s.set AdjunctStorageKey.ADJUNCT_ACCOUNT_HOMEACCOUNTID
              selectedAccount.homeAccountId
          let s := s.set AdjunctStorageKey.ADJUNCT_TOKEN_LOGIN_REQUIRED "no"
          let s := s.event (Event.setActiveAccount selectedAccount.homeAccountId)
          match getToken f env ctx s TokenType.app false with
          | (Except.ok resultToken, s) =>
            match registerAccount resultToken s with
            | Except.error e => (Except.error e, s)
            | Except.ok s =>
              let s := s.set AdjunctStorageKey.ADJUNCT_TOKEN_LOGIN_REQUIRED "no"
              (Except.ok resultToken, s)
          | (Except.error e, s) => (Except.error e, s)

/-- Authentication.getToken.  The second disjunct of the source condition
on the expired-token class compares errorCode against
GraphErrorCode.LOGIN_REQUIRED, which is not a member of the
GraphErrorCode enum; that comparison is never true and is dropped. -/
def getToken (fuel : Nat) (env : Env) (ctx : Settings) (s : St)
    (tokenType : TokenType) (forceLogin : Bool) : Except ErrVal AuthResult × St :=
  match fuel with
  | 0 => (Except.error ErrVal.fuelOut, s)
  | f + 1 =>
    if forceLogin = true ∧
        s.store.getItem AdjunctStorageKey.ADJUNCT_TOKEN_LOGIN_REQUIRED = some "yes" then
      login f env ctx s
    else
      match getLoggedInAccount env s with
      | some userAccount =>
        let requestScope := requestScopeFor ctx tokenType
        let s := s.event (Event.acquireTokenSilent userAccount.homeAccountId requestScope)
        match env.silent userAccount requestScope with
        | Except.ok tokenResponse =>
          let s := s.set AdjunctStorageKey.ADJUNCT_TOKEN_LOGIN_REQUIRED "no"
          (Except.ok tokenResponse, s)
        | Except.error e =>
          match e with
          | MsalErr.interactionRequired errorCode =>
            if errorCode = GraphErrorCode.MISSING_PERMISSION then
              (Except.error (ErrVal.auth AuthErr.getTokenMissingPermissionScope), s)
            else if errorCode = GraphErrorCode.EXPIRED_TOKEN then
              let s := s.set AdjunctStorageKey.ADJUNCT_TOKEN_LOGIN_REQUIRED "yes"
              if forceLogin = true then
                login f env ctx s
              else
                (Except.error (ErrVal.auth AuthErr.getTokenAuthenticationRequired), s)
            else
              (Except.error (ErrVal.msal e), s)
          | MsalErr.other _ => (Except.error (ErrVal.msal e), s)
      | none =>
        (Except.error (ErrVal.auth AuthErr.getTokenNotLoggedIn), s)

end

/-- Graph.getValidEndPoint: join the fixed API base and the configured
version segment to the endpoint, inserting a path separator when the
endpoint does not already start with one.  The charAt(0) comparison of
the source is rendered on the head of the character list (charAt of the
empty string yields the empty string, which is not the separator).  The
non-string branch throwing endPointInvalid is unreachable in the typed
embedding. -/
def getValidEndPoint (ctx : Settings) (endPoint : String) : String :=
  if endPoint.data.head? = some '/' then
    URL.GRAPH_API_BASE ++ "/" ++ ctx.graphVersion ++ endPoint
  else
    URL.GRAPH_API_BASE ++ "/" ++ ctx.graphVersion ++ "/" ++ endPoint

/-- Graph.call: obtain a Graph-scope token, perform the fetch, and
classify the response.  The try block of the source wraps the awaited
getToken call and the fetch, so failures of either are wrapped into
getUnknownError; the classification rejections are returned without
await and escape the catch.  The instanceof Request guard is always true
in the typed embedding.  The source maps the ERROR_ACCESS_DENIED code to
the getRequestDenied entry. -/
def Graph.call (fuel : Nat) (env : Env) (ctx : Settings) (s : St)
    (request : FetchRequest) (forceLogin : Bool) : Except ErrVal GraphBody × St :=
  match getToken fuel env ctx s TokenType.graph forceLogin with
  | (Except.error e, s) =>
      (Except.error (ErrVal.wrappedGraph e GraphErr.getUnknownError), s)
  | (Except.ok _tokenResult, s) =>
    let s := s.event (Event.fetchCall request.url request.method)
    match env.fetch request with
    | Except.error tag =>
        (Except.error (ErrVal.wrappedGraph (ErrVal.exn tag) GraphErr.getUnknownError), s)
    | Except.ok (status, fetchJson) =>
      if status = 200 then (Except.ok fetchJson, s)
      else
        match fetchJson.errorCode with
        | some c =>
          if c = GraphErrorCode.REQUEST_DENIED then
            (Except.error (ErrVal.graph GraphErr.getRequestDenied), s)
          else if c = GraphErrorCode.ACCESS_DENIED then
            (Except.error (ErrVal.graph GraphErr.getAccessDenied), s)
          else if c = GraphErrorCode.ERROR_ACCESS_DENIED then
            (Except.error (ErrVal.graph GraphErr.getRequestDenied), s)
          else
            (Except.error (ErrVal.wrappedBody fetchJson GraphErr.getUnknownError), s)
        | none =>
          (Except.error (ErrVal.wrappedBody fetchJson GraphErr.getUnknownError), s)

/-- The URL of the Graph batch endpoint built by Graph.batch. -/
def batchUrl (ctx : Settings) : String :=
  URL.GRAPH_API_BASE ++ "/" ++ ctx.graphVersion ++ "/$batch"

/-- Graph.batch: reject oversized batches before anything else, otherwise
POST the batch to the batch endpoint via Graph.call.  The catch clause of
the source evaluates Promise.reject(e) without returning it, so a failure
of the underlying call is swallowed and the batch promise resolves with
undefined, modelled as Except.ok none. -/
def Graph.batch (fuel : Nat) (env : Env) (ctx : Settings) (s : St)
    (batchRequest : BatchRequest) (forceLogin : Bool) :
    Except ErrVal (Option GraphBody) × St :=
  if batchRequest.requests.length > 20 then
    (Except.error (ErrVal.graph GraphErr.batchRequestLimit), s)
  else
    match Graph.call fuel env ctx s
        { url := batchUrl ctx, method := "POST", body := some batchRequest } forceLogin with
    | (Except.ok b, s) => (Except.ok (some b), s)
    | (Except.error _, s) => (Except.ok none, s)

/-- Graph.get: build a GET request for the validated endpoint and perform
it via Graph.call. -/
def Graph.get (fuel : Nat) (env : Env) (ctx : Settings) (s : St)
    (endPoint : String) (forceLogin : Bool) : Except ErrVal GraphBody × St :=
  Graph.call fuel env ctx s
    { url := getValidEndPoint ctx endPoint, method := "GET", body := none } forceLogin

/-- The in-memory fields of the Appoint object mutated by setUserProfile,
together with the shared world state. -/
structure AppSt where
  st : St
  userInfo : Option String
  userPhoto : Option String
  userRoles : List String
deriving DecidableEq

/-- Helpers.includesScope (src/utility/Helpers.ts): true when at least
one entry of scopesToCheck occurs in scopesToBeChecked, false when
either list is empty. -/
def includesScope (scopesToCheck scopesToBeChecked : List String) : Bool :=
  if scopesToBeChecked.length < 1 || scopesToCheck.length < 1 then false
  else scopesToCheck.any (fun scope => scopesToBeChecked.contains scope)

/-- The fixed permission list scopesUserProfile of Appoint.setUserProfile. -/
def scopesUserProfile : List String :=
  ["User.Read", "User.ReadWrite", "User.Read.All", "User.ReadWrite.All",
   "Directory.Read.All", "Directory.ReadWrite.All", "Directory.AccessAsUser.All"]

/-- The two-entry profile-and-photo batch request built by
Appoint.setUserProfile. -/
def profileBatchRequest : BatchRequest :=
  { requests :=
      [ { id := "1", method := "GET",
          url := "/me?$select=id,employeeId,displayName,givenName,surname,userPrincipalName,mail,businessPhones,mobilePhone,faxNumber,jobTitle,preferredLanguage,officeLocation,streetAddress,city,companyName,state,postalCode,country,department" },
        { id := "2", method := "GET", url := "/me/photo/$value" } ] }

/-- The forEach over the batch responses in Appoint.setUserProfile:
the response with id 1 and status 200 populates userInfo, the response
with id 2 and status 200 populates userPhoto. -/
def applyBatchResponses (rs : List BatchSubResponse) (a : AppSt) : AppSt :=
  rs.foldl
    (fun a result =>
      let a :=
        if result.id = "1" ∧ result.status = 200 then
          { a with userInfo := some result.body }
        else a
      if result.id = "2" ∧ result.status = 200 then
        { a with userPhoto := some result.body }
      else a)
    a

/-- Appoint.setUserProfile.  When the configured resource scopes include
a user-profile-read permission, performs the profile-and-photo batch
call.  Graph.batch swallows failures of the underlying call and resolves
with undefined; the subsequent read of the responses member on that
undefined result throws a TypeError, which the catch clause rejects
with.  A defined batch result without a responses member likewise throws
on forEach. -/
def setUserProfile (fuel : Nat) (env : Env) (ctx : Settings) (a : AppSt) :
    Except ErrVal Unit × AppSt :=
  if includesScope scopesUserProfile ctx.graphPermissions = true then
    let a :=
      match a.st.store.getItem AdjunctStorageKey.ADJUNCT_ACCOUNT_ROLES with
      | some userRoles => { a with userRoles := parseRoles userRoles }
      | none => a
    match Graph.batch fuel env ctx a.st profileBatchRequest false with
    | (Except.error e, st) => (Except.error e, { a with st := st })
    | (Except.ok none, st) => (Except.error ErrVal.typeError, { a with st := st })
    | (Except.ok (some batchResult), st) =>
      match batchResult.responses with
      | none => (Except.error ErrVal.typeError, { a with st := st })
      | some rs => (Except.ok (), applyBatchResponses rs { a with st := st })
  else
    (Except.ok (), a)

/-- Appoint.signIn: login, then populate the user profile; any rejection
of either step is rethrown unchanged by the catch clause. -/
def signIn (fuel : Nat) (env : Env) (ctx : Settings) (a : AppSt) :
    Except ErrVal Unit × AppSt :=
  match login fuel env ctx a.st with
  | (Except.error e, st) => (Except.error e, { a with st := st })
  | (Except.ok _, st) => setUserProfile fuel env ctx { a with st := st }

/-- Appoint.getToken: delegate to Authentication.getToken only when the
persisted login-required flag reads exactly the string no; otherwise
reject with the notLoggedIn taxonomy entry.  (Named appointGetToken
because the unqualified name getToken denotes the Authentication method
it delegates to.) -/
def appointGetToken (fuel : Nat) (env : Env) (ctx : Settings) (a : AppSt)
    (tokenType : TokenType) (forceLogin : Bool) : Except ErrVal AuthResult × AppSt :=
  if a.st.store.getItem AdjunctStorageKey.ADJUNCT_TOKEN_LOGIN_REQUIRED = some "no" then
    match getToken fuel env ctx a.st tokenType forceLogin with
    | (r, st) => (r, { a with st := st })
  else
    (Except.error (ErrVal.appoint AppointErr.notLoggedIn), a)

/-- Whether one state trace extends another by appending events; every
modelled operation only ever appends to the trace. -/
def TraceExtends (s1 s2 : St) : Prop := ∃ d, s2.trace = s1.trace ++ d

/-! Concrete fixtures used to witness the theorems below and to exhibit
counterexamples: two provider accounts, token results for them, a popup
configuration, and oracle environments fixing the provider responses of
each scenario. -/

/-- Fixture: the provider account with identifier A. -/
def accA : AccountInfo := { homeAccountId := "A" }

/-- Fixture: the provider account with identifier B. -/
def accB : AccountInfo := { homeAccountId := "B" }

/-- Fixture: a token result carrying account A. -/
def tokA : AuthResult := { account := some accA, accessToken := "tA", roles := none }

/-- Fixture: a token result carrying account B. -/
def tokB : AuthResult := { account := some accB, accessToken := "tB", roles := none }

/-- Fixture: a login result carrying no inline account. -/
def arNone : AuthResult := { account := none, accessToken := "", roles := none }

/-- Fixture: a popup configuration with one application scope and one
resource scope that grants user-profile read access. -/
def ctxFix : Settings :=
  { signInMethod := SignInMethod.popup
    appPermissions := ["openid"]
    graphPermissions := ["User.Read"]
    graphVersion := "v1.0" }

/-- Fixture: empty browser storage. -/
def stEmpty : St := { store := [], trace := [] }

/-- Fixture: storage holding account A with the login-required flag
absent. -/
def stAbsent : St :=
  { store := [("msAdjunct.Account.homeAccountId", "A")], trace := [] }

/-- Fixture: storage holding account A with the login-required flag
reading no (a trusted session). -/
def stTrusted : St :=
  { store := [("msAdjunct.Account.homeAccountId", "A"), ("msAdjunct.Token.Login_Required", "no")]
    trace := [] }

/-- Fixture: the exact state produced by a fuel-9 login from stTrusted
under envOk (computed by evaluation; used to witness the signIn
theorem). -/
def stAfterLogin : St :=
  { store := [("msAdjunct.Token.Login_Required", "no"), ("msAdjunct.Account.homeAccountId", "A")]
    trace := [Event.acquireTokenSilent "A" ["openid"],
              Event.storeSet "msAdjunct.Token.Login_Required" "no"] }

/-- Fixture environment: silent token acquisition succeeds with account
A, one known account, and a fetch layer that fails with a network
error. -/
def envOk : Env :=
  { handleRedirect := Except.ok none
    popupResult := Except.ok tokA
    allAccounts := [accA]
    accountById := fun id => if id = "A" then some accA else none
    silent := fun _ _ => Except.ok tokA
    callback := fun l => Except.ok (l.headD accA)
    fetch := fun _ => Except.error "netdown" }

/-- Fixture environment: like envOk, but silent token acquisition
succeeds with a result that carries no account (null account). -/
def envNullTok : Env :=
  { envOk with silent := fun _ _ => Except.ok arNone }

/-- Fixture environment: two known accounts, a selection callback
resolving to account B, and silent token acquisition failing with an
error outside the InteractionRequiredAuthError classification. -/
def envMulti : Env :=
  { handleRedirect := Except.ok none
    popupResult := Except.ok tokB
    allAccounts := [accA, accB]
    accountById := fun id => if id = "B" then some accB else if id = "A" then some accA else none
    silent := fun _ _ => Except.error (MsalErr.other "network_down")
    callback := fun _ => Except.ok accB
    fetch := fun _ => Except.error "netdown" }

/-- Fixture environment: like envMulti but with a selection callback
that rejects. -/
def envCbFail : Env :=
  { envMulti with callback := fun _ => Except.error "boom" }

/-- Fixture environment: the provider knows no accounts at all. -/
def envNoAcc : Env :=
  { envMulti with allAccounts := [] }

/-- Fixture environment: silent token acquisition fails with the
expired-token / interaction-required class. -/
def envExpired : Env :=
  { envOk with
      silent := fun _ _ => Except.error (MsalErr.interactionRequired "interaction_required") }

/-- Fixture environment: silent token acquisition fails with the
missing-permission class. -/
def envMissing : Env :=
  { envOk with
      silent := fun _ _ => Except.error (MsalErr.interactionRequired "invalid_grant") }

/-- Fixture environment: the fetch layer answers status 403 with the
given provider error code in the body. -/
def envWithFetchCode (c : String) : Env :=
  { envOk with
      fetch := fun _ => Except.ok (403, { errorCode := some c, responses := none, raw := "" }) }

/-- Fixture: a minimal fetch request. -/
def reqFix : FetchRequest := { url := "u", method := "GET", body := none }

/-- Fixture: the n-th batch sub-request. -/
def subReq (i : Nat) : BatchSubRequest := { id := toString i, method := "GET", url := "/x" }

/-- Fixture: a batch of exactly 20 sub-requests. -/
def br20 : BatchRequest := { requests := (List.range 20).map subReq }

/-- Fixture: a batch of 21 sub-requests. -/
def br21 : BatchRequest := { requests := (List.range 21).map subReq }

/-- Fixture: an Appoint object over the trusted session. -/
def appTrusted : AppSt :=
  { st := stTrusted, userInfo := none, userPhoto := none, userRoles := [] }

/-- Fixture: an Appoint object whose persisted flag reads yes. -/
def appYes : AppSt :=
  { st := { store := [("msAdjunct.Token.Login_Required", "yes")], trace := [] }
    userInfo := none, userPhoto := none, userRoles := [] }


theorem getItem_setItem_same (st : Store) (k v : String) :
    (st.setItem k v).getItem k = some v := by
  simp [Store.getItem, Store.setItem]

theorem find?_filter_ne (l : List (String × String)) (k k' : String) (h : (k == k') = false) :
    List.find? (fun p => p.1 == k') (l.filter (fun p => p.1 != k)) =
      List.find? (fun p => p.1 == k') l := by
  induction l with
  | nil => rfl
  | cons hd tl ih =>
    rw [List.filter_cons]
    by_cases hk : (hd.1 != k) = true
    · rw [if_pos hk]
      cases hq : (hd.1 == k') with
      | true => simp [List.find?_cons, hq]
      | false =>
        simp only [List.find?_cons, hq]
        exact ih
    · rw [if_neg hk]
      have hek : hd.1 = k := by simpa using hk
      have h1 : (hd.1 == k') = false := by rw [hek]; exact h
      simp only [List.find?_cons, h1]
      exact ih

theorem getItem_setItem_ne (st : Store) (k k' v : String) (h : (k == k') = false) :
    (st.setItem k v).getItem k' = st.getItem k' := by
  simp only [Store.getItem, Store.setItem]
  have h1 : ((k, v).1 == k') = false := h
  simp only [List.find?_cons, h1]
  rw [find?_filter_ne st k k' h]

theorem getItem_removeItem_ne (st : Store) (k k' : String) (h : (k == k') = false) :
    (st.removeItem k).getItem k' = st.getItem k' := by
  simp only [Store.getItem, Store.removeItem]
  rw [find?_filter_ne st k k' h]

theorem getItem_removeItem_same (st : Store) (k : String) :
    (st.removeItem k).getItem k = none := by
  simp only [Store.getItem, Store.removeItem]
  induction st with
  | nil => rfl
  | cons hd tl ih =>
    rw [List.filter_cons]
    by_cases hk : (hd.1 != k) = true
    · rw [if_pos hk]
      have h2 : (hd.1 == k) = false := by simpa using hk
      simp only [List.find?_cons, h2]
      exact ih
    · rw [if_neg hk]
      exact ih

theorem traceExtends_refl (s : St) : TraceExtends s s := ⟨[], by simp⟩

theorem traceExtends_trans {a b c : St} (h1 : TraceExtends a b) (h2 : TraceExtends b c) :
    TraceExtends a c := by
  obtain ⟨d1, e1⟩ := h1
  obtain ⟨d2, e2⟩ := h2
  exact ⟨d1 ++ d2, by rw [e2, e1, List.append_assoc]⟩

theorem traceExtends_event (s : St) (e : Event) : TraceExtends s (s.event e) := ⟨[e], rfl⟩

theorem traceExtends_set (s : St) (k v : String) : TraceExtends s (s.set k v) :=
  ⟨[Event.storeSet k v], rfl⟩

theorem traceExtends_remove (s : St) (k : String) : TraceExtends s (s.remove k) :=
  ⟨[Event.storeRemove k], rfl⟩

theorem traceExtends_clearStorage (s : St) : TraceExtends s (clearStorage s) :=
  traceExtends_trans (traceExtends_remove _ _)
    (traceExtends_trans (traceExtends_remove _ _) (traceExtends_remove _ _))

theorem traceExtends_registerAccount (ar : AuthResult) (s s' : St)
    (h : registerAccount ar s = Except.ok s') : TraceExtends s s' := by
  unfold registerAccount at h
  cases har : ar.account with
  | none =>
    rw [har] at h
    exact absurd h (by simp)
  | some a =>
    rw [har] at h
    dsimp only at h
    cases hr : ar.roles with
    | none =>
      rw [hr] at h
      cases h
      exact traceExtends_set s _ _
    | some rs =>
      rw [hr] at h
      cases h
      exact traceExtends_trans (traceExtends_set s _ _) (traceExtends_set _ _ _)

theorem registerAccount_ok_of_account (ar : AuthResult) (s : St) (x : AccountInfo)
    (h : ar.account = some x) : ∃ s', registerAccount ar s = Except.ok s' := by
  unfold registerAccount
  rw [h]
  dsimp only
  cases hr : ar.roles with
  | none => exact ⟨_, rfl⟩
  | some rs => exact ⟨_, rfl⟩

theorem traceMonoAll (fuel : Nat) :
    (∀ env ctx s, TraceExtends s (login fuel env ctx s).2) ∧
    (∀ env ctx s, TraceExtends s (loginRedirect fuel env ctx s).2) ∧
    (∀ env ctx s, TraceExtends s (loginPopup fuel env ctx s).2) ∧
    (∀ env ctx s ar, TraceExtends s (processLoginResult fuel env ctx s ar).2) ∧
    (∀ env ctx s t fl, TraceExtends s (getToken fuel env ctx s t fl).2) := by
  induction fuel with
  | zero =>
    refine ⟨?_, ?_, ?_, ?_, ?_⟩ <;> intros <;>
      simp only [login, loginRedirect, loginPopup, processLoginResult, getToken] <;>
      exact traceExtends_refl _
  | succ f ih =>
    obtain ⟨ihL, ihR, ihP, ihPr, ihG⟩ := ih
    refine ⟨?_, ?_, ?_, ?_, ?_⟩
    · intro env ctx s
      simp only [login]
      cases ctx.signInMethod
      · exact ihR env ctx s
      · exact ihP env ctx s
    · intro env ctx s
      simp only [loginRedirect]
      cases hr : env.handleRedirect with
      | error e => exact traceExtends_event s _
      | ok r =>
        dsimp only
        cases r with
        | some ar => exact traceExtends_trans (traceExtends_event s _) (ihPr env ctx _ ar)
        | none =>
          dsimp only
          split
          · exact traceExtends_trans (traceExtends_event s _)
              (traceExtends_trans (traceExtends_clearStorage _) (traceExtends_event _ _))
          · exact traceExtends_trans (traceExtends_event s _) (ihG env ctx _ TokenType.app true)
    · intro env ctx s
      simp only [loginPopup]
      split
      · cases hp : env.popupResult with
        | error e =>
          exact traceExtends_trans (traceExtends_clearStorage s) (traceExtends_event _ _)
        | ok ar =>
          dsimp only
          exact traceExtends_trans (traceExtends_clearStorage s)
            (traceExtends_trans (traceExtends_event _ _) (ihPr env ctx _ ar))
      · exact ihG env ctx s TokenType.app true
    · intro env ctx s ar
      simp only [processLoginResult]
      cases ar.account with
      | some a =>
        dsimp only
        cases hreg : registerAccount ar
            (s.set AdjunctStorageKey.ADJUNCT_TOKEN_LOGIN_REQUIRED "yes") with
        | error e => exact traceExtends_set s _ _
        | ok s3 =>
          exact traceExtends_trans (traceExtends_set s _ _)
            (traceExtends_trans (traceExtends_registerAccount _ _ _ hreg)
              (traceExtends_set _ _ _))
      | none =>
        dsimp only
        cases env.allAccounts with
        | nil => exact traceExtends_set s _ _
        | cons a rest =>
          cases rest with
          | nil =>
            dsimp only
            have hbase : TraceExtends s
                ((s.set AdjunctStorageKey.ADJUNCT_TOKEN_LOGIN_REQUIRED "yes").event
                  (Event.setActiveAccount a.homeAccountId)) :=
              traceExtends_trans (traceExtends_set s _ _) (traceExtends_event _ _)
            have hg := ihG env ctx
              ((s.set AdjunctStorageKey.ADJUNCT_TOKEN_LOGIN_REQUIRED "yes").event
                (Event.setActiveAccount a.homeAccountId)) TokenType.app false
            cases hgt : getToken f env ctx
                ((s.set AdjunctStorageKey.ADJUNCT_TOKEN_LOGIN_REQUIRED "yes").event
                  (Event.setActiveAccount a.homeAccountId)) TokenType.app false with
            | mk r s2 =>
              rw [hgt] at hg
              cases r with
              | ok tok =>
                dsimp only
                cases hreg : registerAccount tok s2 with
                | error e => exact traceExtends_trans hbase hg
                | ok s3 =>
                  exact traceExtends_trans hbase (traceExtends_trans hg
                    (traceExtends_trans (traceExtends_registerAccount _ _ _ hreg)
                      (traceExtends_set _ _ _)))
              | error e =>
                dsimp only
                exact traceExtends_trans hbase hg
          | cons b rest2 =>
            dsimp only
            cases hcb : env.callback (a :: b :: rest2) with
            | error tag =>
              exact traceExtends_trans (traceExtends_set s _ _) (traceExtends_event _ _)
            | ok sel =>
              dsimp only
              have hbase : TraceExtends s
                  ((((((s.set AdjunctStorageKey.ADJUNCT_TOKEN_LOGIN_REQUIRED "yes").event
                    Event.multiAccountCallback).set AdjunctStorageKey.ADJUNCT_ACCOUNT_HOMEACCOUNTID
                    sel.homeAccountId).set AdjunctStorageKey.ADJUNCT_TOKEN_LOGIN_REQUIRED "no").event
                    (Event.setActiveAccount sel.homeAccountId))) :=
                traceExtends_trans (traceExtends_set s _ _)
                  (traceExtends_trans (traceExtends_event _ _)
                    (traceExtends_trans (traceExtends_set _ _ _)
                      (traceExtends_trans (traceExtends_set _ _ _) (traceExtends_event _ _))))
              have hg := ihG env ctx
                ((((((s.set AdjunctStorageKey.ADJUNCT_TOKEN_LOGIN_REQUIRED "yes").event
                  Event.multiAccountCallback).set AdjunctStorageKey.ADJUNCT_ACCOUNT_HOMEACCOUNTID
                  sel.homeAccountId).set AdjunctStorageKey.ADJUNCT_TOKEN_LOGIN_REQUIRED "no").event
                  (Event.setActiveAccount sel.homeAccountId))) TokenType.app false
              cases hgt : getToken f env ctx
                  ((((((s.set AdjunctStorageKey.ADJUNCT_TOKEN_LOGIN_REQUIRED "yes").event
                    Event.multiAccountCallback).set AdjunctStorageKey.ADJUNCT_ACCOUNT_HOMEACCOUNTID
                    sel.homeAccountId).set AdjunctStorageKey.ADJUNCT_TOKEN_LOGIN_REQUIRED "no").event
                    (Event.setActiveAccount sel.homeAccountId))) TokenType.app false with
              | mk r s2 =>
                rw [hgt] at hg
                cases r with
                | ok tok =>
                  dsimp only
                  cases hreg : registerAccount tok s2 with
                  | error e => exact traceExtends_trans hbase hg
                  | ok s3 =>
                    exact traceExtends_trans hbase (traceExtends_trans hg
                      (traceExtends_trans (traceExtends_registerAccount _ _ _ hreg)
                        (traceExtends_set _ _ _)))
                | error e =>
                  dsimp only
                  exact traceExtends_trans hbase hg
    · intro env ctx s t fl
      simp only [getToken]
      split
      · exact ihL env ctx s
      · cases hla : getLoggedInAccount env s with
        | none => exact traceExtends_refl s
        | some ua =>
          dsimp only
          cases hsi : env.silent ua (requestScopeFor ctx t) with
          | ok tok =>
            exact traceExtends_trans (traceExtends_event s _) (traceExtends_set _ _ _)
          | error e =>
            dsimp only
            cases e with
            | other tag => exact traceExtends_event s _
            | interactionRequired ec =>
              dsimp only
              split
              · exact traceExtends_event s _
              · split
                · split
                  · exact traceExtends_trans (traceExtends_event s _)
                      (traceExtends_trans (traceExtends_set _ _ _) (ihL env ctx _))
                  · exact traceExtends_trans (traceExtends_event s _) (traceExtends_set _ _ _)
                · exact traceExtends_event s _

theorem login_traceExtends (fuel : Nat) (env : Env) (ctx : Settings) (s : St) :
    TraceExtends s (login fuel env ctx s).2 :=
  (traceMonoAll fuel).1 env ctx s

theorem getToken_traceExtends (fuel : Nat) (env : Env) (ctx : Settings) (s : St)
    (t : TokenType) (fl : Bool) : TraceExtends s (getToken fuel env ctx s t fl).2 :=
  (traceMonoAll fuel).2.2.2.2 env ctx s t fl

theorem St.store_event (s : St) (e : Event) : (s.event e).store = s.store := rfl

theorem St.store_set (s : St) (k v : String) : (s.set k v).store = s.store.setItem k v := rfl

theorem St.trace_event (s : St) (e : Event) : (s.event e).trace = s.trace ++ [e] := rfl

theorem St.trace_set (s : St) (k v : String) :
    (s.set k v).trace = s.trace ++ [Event.storeSet k v] := rfl

theorem getToken_false_error_flag (fuel : Nat) (env : Env) (ctx : Settings) (s : St)
    (t : TokenType) (e : ErrVal) (s' : St)
    (h : getToken fuel env ctx s t false = (Except.error e, s')) :
    s'.store.getItem AdjunctStorageKey.ADJUNCT_TOKEN_LOGIN_REQUIRED =
        s.store.getItem AdjunctStorageKey.ADJUNCT_TOKEN_LOGIN_REQUIRED ∨
      s'.store.getItem AdjunctStorageKey.ADJUNCT_TOKEN_LOGIN_REQUIRED = some "yes" := by
  cases fuel with
  | zero =>
    simp only [getToken] at h
    injection h with h1 h2
    rw [← h2]
    exact Or.inl rfl
  | succ f =>
    simp only [getToken] at h
    rw [if_neg (by simp)] at h
    cases hla : getLoggedInAccount env s with
    | none =>
      rw [hla] at h
      dsimp only at h
      cases h
      exact Or.inl rfl
    | some ua =>
      rw [hla] at h
      dsimp only at h
      cases hsi : env.silent ua (requestScopeFor ctx t) with
      | ok tok =>
        rw [hsi] at h
        dsimp only at h
        cases h
      | error me =>
        rw [hsi] at h
        dsimp only at h
        cases me with
        | other tag =>
          dsimp only at h
          cases h
          exact Or.inl rfl
        | interactionRequired ec =>
          dsimp only at h
          by_cases h1 : ec = GraphErrorCode.MISSING_PERMISSION
          · rw [if_pos h1] at h
            cases h
            exact Or.inl rfl
          · rw [if_neg h1] at h
            by_cases h2 : ec = GraphErrorCode.EXPIRED_TOKEN
            · rw [if_pos h2, if_neg (by simp)] at h
              cases h
              exact Or.inr (getItem_setItem_same _ _ _)
            · rw [if_neg h2] at h
              cases h
              exact Or.inl rfl

theorem getToken_false_ok_from_silent (fuel : Nat) (env : Env) (ctx : Settings) (s : St)
    (t : TokenType) (tok : AuthResult) (s' : St)
    (h : getToken fuel env ctx s t false = (Except.ok tok, s')) :
    ∃ a, env.silent a (requestScopeFor ctx t) = Except.ok tok := by
  cases fuel with
  | zero =>
    simp only [getToken] at h
    injection h with h1 h2
    exact absurd h1 (by simp)
  | succ f =>
    simp only [getToken] at h
    rw [if_neg (by simp)] at h
    cases hla : getLoggedInAccount env s with
    | none =>
      rw [hla] at h
      dsimp only at h
      injection h with h1 h2
      exact absurd h1 (by simp)
    | some ua =>
      rw [hla] at h
      dsimp only at h
      cases hsi : env.silent ua (requestScopeFor ctx t) with
      | ok tk =>
        rw [hsi] at h
        dsimp only at h
        injection h with h1 h2
        injection h1 with h1
        exact ⟨ua, by rw [hsi, h1]⟩
      | error me =>
        rw [hsi] at h
        dsimp only at h
        cases me with
        | other tag =>
          injection h with h1 h2
          exact absurd h1 (by simp)
        | interactionRequired ec =>
          dsimp only at h
          by_cases h1 : ec = GraphErrorCode.MISSING_PERMISSION
          · rw [if_pos h1] at h
            injection h with h3 h4
            exact absurd h3 (by simp)
          · rw [if_neg h1] at h
            by_cases h2 : ec = GraphErrorCode.EXPIRED_TOKEN
            · rw [if_pos h2, if_neg (by simp)] at h
              injection h with h3 h4
              exact absurd h3 (by simp)
            · rw [if_neg h2] at h
              injection h with h3 h4
              exact absurd h3 (by simp)

theorem getToken_silent_first (fuel : Nat) (env : Env) (ctx : Settings) (s : St)
    (t : TokenType) (fl : Bool) (a : AccountInfo)
    (hc : ¬(fl = true ∧ s.store.getItem AdjunctStorageKey.ADJUNCT_TOKEN_LOGIN_REQUIRED = some "yes"))
    (h : getLoggedInAccount env s = some a) :
    ∃ d, (getToken (fuel + 1) env ctx s t fl).2.trace =
      s.trace ++ Event.acquireTokenSilent a.homeAccountId (requestScopeFor ctx t) :: d := by
  simp only [getToken]
  rw [if_neg hc, h]
  dsimp only
  cases hsi : env.silent a (requestScopeFor ctx t) with
  | ok tok =>
    dsimp only
    exact ⟨[Event.storeSet AdjunctStorageKey.ADJUNCT_TOKEN_LOGIN_REQUIRED "no"],
      by simp [St.trace_set, St.trace_event]⟩
  | error me =>
    dsimp only
    cases me with
    | other tag => exact ⟨[], rfl⟩
    | interactionRequired ec =>
      dsimp only
      by_cases h1 : ec = GraphErrorCode.MISSING_PERMISSION
      · rw [if_pos h1]
        exact ⟨[], rfl⟩
      · rw [if_neg h1]
        by_cases h2 : ec = GraphErrorCode.EXPIRED_TOKEN
        · rw [if_pos h2]
          by_cases h3 : fl = true
          · rw [if_pos h3]
            obtain ⟨d, hd⟩ := login_traceExtends fuel env ctx
              (((s.event (Event.acquireTokenSilent a.homeAccountId (requestScopeFor ctx t))).set
                AdjunctStorageKey.ADJUNCT_TOKEN_LOGIN_REQUIRED "yes"))
            refine ⟨Event.storeSet AdjunctStorageKey.ADJUNCT_TOKEN_LOGIN_REQUIRED "yes" :: d, ?_⟩
            rw [hd]
            simp [St.trace_set, St.trace_event]
          · rw [if_neg h3]
            exact ⟨[Event.storeSet AdjunctStorageKey.ADJUNCT_TOKEN_LOGIN_REQUIRED "yes"],
              by simp [St.trace_set, St.trace_event]⟩
        · rw [if_neg h2]
          exact ⟨[], rfl⟩

/-- Helper: everything processLoginResult does after its initial
pessimistic flag write only appends further events. -/
theorem processLoginResult_extends_after_yes (fuel : Nat) (env : Env) (ctx : Settings)
    (s : St) (ar : AuthResult) :
    TraceExtends (s.set AdjunctStorageKey.ADJUNCT_TOKEN_LOGIN_REQUIRED "yes")
      (processLoginResult (fuel + 1) env ctx s ar).2 := by
  simp only [processLoginResult]
  cases ar.account with
  | some a =>
    dsimp only
    cases hreg : registerAccount ar
        (s.set AdjunctStorageKey.ADJUNCT_TOKEN_LOGIN_REQUIRED "yes") with
    | error e => exact traceExtends_refl _
    | ok s3 =>
      exact traceExtends_trans (traceExtends_registerAccount _ _ _ hreg)
        (traceExtends_set _ _ _)
  | none =>
    dsimp only
    cases env.allAccounts with
    | nil => exact traceExtends_refl _
    | cons a rest =>
      cases rest with
      | nil =>
        dsimp only
        have hg := getToken_traceExtends fuel env ctx
          ((s.set AdjunctStorageKey.ADJUNCT_TOKEN_LOGIN_REQUIRED "yes").event
            (Event.setActiveAccount a.homeAccountId)) TokenType.app false
        cases hgt : getToken fuel env ctx
            ((s.set AdjunctStorageKey.ADJUNCT_TOKEN_LOGIN_REQUIRED "yes").event
              (Event.setActiveAccount a.homeAccountId)) TokenType.app false with
        | mk r s2 =>
          rw [hgt] at hg
          cases r with
          | ok tok =>
            dsimp only
            cases hreg : registerAccount tok s2 with
            | error e => exact traceExtends_trans (traceExtends_event _ _) hg
            | ok s3 =>
              exact traceExtends_trans (traceExtends_event _ _) (traceExtends_trans hg
                (traceExtends_trans (traceExtends_registerAccount _ _ _ hreg)
                  (traceExtends_set _ _ _)))
          | error e =>
            dsimp only
            exact traceExtends_trans (traceExtends_event _ _) hg
      | cons b rest2 =>
        dsimp only
        cases hcb : env.callback (a :: b :: rest2) with
        | error tag => exact traceExtends_event _ _
        | ok sel =>
          dsimp only
          have hbase : TraceExtends (s.set AdjunctStorageKey.ADJUNCT_TOKEN_LOGIN_REQUIRED "yes")
              ((((((s.set AdjunctStorageKey.ADJUNCT_TOKEN_LOGIN_REQUIRED "yes").event
                Event.multiAccountCallback).set AdjunctStorageKey.ADJUNCT_ACCOUNT_HOMEACCOUNTID
                sel.homeAccountId).set AdjunctStorageKey.ADJUNCT_TOKEN_LOGIN_REQUIRED "no").event
                (Event.setActiveAccount sel.homeAccountId))) :=
            traceExtends_trans (traceExtends_event _ _)
              (traceExtends_trans (traceExtends_set _ _ _)
                (traceExtends_trans (traceExtends_set _ _ _) (traceExtends_event _ _)))
          have hg := getToken_traceExtends fuel env ctx
            ((((((s.set AdjunctStorageKey.ADJUNCT_TOKEN_LOGIN_REQUIRED "yes").event
              Event.multiAccountCallback).set AdjunctStorageKey.ADJUNCT_ACCOUNT_HOMEACCOUNTID
              sel.homeAccountId).set AdjunctStorageKey.ADJUNCT_TOKEN_LOGIN_REQUIRED "no").event
              (Event.setActiveAccount sel.homeAccountId))) TokenType.app false
          cases hgt : getToken fuel env ctx
              ((((((s.set AdjunctStorageKey.ADJUNCT_TOKEN_LOGIN_REQUIRED "yes").event
                Event.multiAccountCallback).set AdjunctStorageKey.ADJUNCT_ACCOUNT_HOMEACCOUNTID
                sel.homeAccountId).set AdjunctStorageKey.ADJUNCT_TOKEN_LOGIN_REQUIRED "no").event
                (Event.setActiveAccount sel.homeAccountId))) TokenType.app false with
          | mk r s2 =>
            rw [hgt] at hg
            cases r with
            | ok tok =>
              dsimp only
              cases hreg : registerAccount tok s2 with
              | error e => exact traceExtends_trans hbase hg
              | ok s3 =>
                exact traceExtends_trans hbase (traceExtends_trans hg
                  (traceExtends_trans (traceExtends_registerAccount _ _ _ hreg)
                    (traceExtends_set _ _ _)))
            | error e =>
              dsimp only
              exact traceExtends_trans hbase hg

/-- Claim C1 (amended).  The claim as stated is refuted by
processLoginResult_multi_failure_flag_no_cex, in two ways: in the
multi-account branch the code clears the flag to no as soon as the
selection callback resolves, before the confirming token fetch; and in
the single- and multi-account branches a confirming fetch that succeeds
with a result carrying no account throws a TypeError in registerAccount
after the flag was already cleared to no.  Amended property:
processLoginResult persists loginRequired = yes as its very first write,
and whenever the provider reports at most one known account (so the
multi-account branch is not taken) and every successful silent token
result carries an account (so registerAccount cannot throw), a failing
result never leaves the persisted flag reading no. -/
theorem processLoginResult_pessimistic_flag_amended (fuel : Nat) (env : Env) (ctx : Settings)
    (s : St) (ar : AuthResult) :
    (∃ d, (processLoginResult (fuel + 1) env ctx s ar).2.trace =
        s.trace ++ Event.storeSet AdjunctStorageKey.ADJUNCT_TOKEN_LOGIN_REQUIRED "yes" :: d) ∧
    (∀ e, env.allAccounts.length ≤ 1 →
      (∀ a sc r, env.silent a sc = Except.ok r → r.account ≠ none) →
      (processLoginResult (fuel + 1) env ctx s ar).1 = Except.error e →
      (processLoginResult (fuel + 1) env ctx s ar).2.store.getItem
          AdjunctStorageKey.ADJUNCT_TOKEN_LOGIN_REQUIRED ≠ some "no") := by
  constructor
  · obtain ⟨d, hd⟩ := processLoginResult_extends_after_yes fuel env ctx s ar
    exact ⟨d, by rw [hd]; simp [St.trace_set]⟩
  · intro e hlen hwf herr
    cases har : ar.account with
    | some a =>
      simp only [processLoginResult, har] at herr ⊢
      cases hreg : registerAccount ar
          (s.set AdjunctStorageKey.ADJUNCT_TOKEN_LOGIN_REQUIRED "yes") with
      | error e2 =>
        dsimp only
        rw [St.store_set, getItem_setItem_same]
        simp
      | ok s3 =>
        rw [hreg] at herr
        simp at herr
    | none =>
      cases hacc : env.allAccounts with
      | nil =>
        simp only [processLoginResult, har, hacc]
        rw [St.store_set, getItem_setItem_same]
        simp
      | cons a rest =>
        cases rest with
        | cons b rest2 =>
          rw [hacc] at hlen
          simp at hlen
        | nil =>
          simp only [processLoginResult, har, hacc] at herr ⊢
          cases hgt : getToken fuel env ctx
              ((s.set AdjunctStorageKey.ADJUNCT_TOKEN_LOGIN_REQUIRED "yes").event
                (Event.setActiveAccount a.homeAccountId)) TokenType.app false with
          | mk r s2 =>
            rw [hgt] at herr
            cases r with
            | ok tok =>
              obtain ⟨a2, hsi⟩ := getToken_false_ok_from_silent fuel env ctx
                ((s.set AdjunctStorageKey.ADJUNCT_TOKEN_LOGIN_REQUIRED "yes").event
                  (Event.setActiveAccount a.homeAccountId)) TokenType.app tok s2 hgt
              obtain ⟨x, hx⟩ := Option.ne_none_iff_exists'.mp
                (hwf a2 (requestScopeFor ctx TokenType.app) tok hsi)
              obtain ⟨s3, hreg⟩ := registerAccount_ok_of_account tok s2 x hx
              dsimp only at herr
              rw [hreg] at herr
              simp at herr
            | error e2 =>
              have hflag := getToken_false_error_flag fuel env ctx _ TokenType.app e2 s2 hgt
              have h5 : ((s.set AdjunctStorageKey.ADJUNCT_TOKEN_LOGIN_REQUIRED "yes").event
                  (Event.setActiveAccount a.homeAccountId)).store.getItem
                  AdjunctStorageKey.ADJUNCT_TOKEN_LOGIN_REQUIRED = some "yes" := by
                rw [St.store_event, St.store_set]
                exact getItem_setItem_same _ _ _
              rcases hflag with h | h
              · rw [h, h5]
                simp
              · rw [h]
                simp

/-- Claim C1, counterexample to the claim as stated, in two scenarios.
First: a login result with no inline account, two provider accounts, a
selection callback resolving to account B, and a confirming silent fetch
failing with an error outside the interaction-required class make
processLoginResult reject while the persisted loginRequired flag is left
reading no for the account that failed.  Second: with a single provider
account and a stored identifier, a confirming silent fetch that succeeds
with a result carrying no account makes getToken clear the flag to no,
after which registerAccount throws a TypeError, so processLoginResult
rejects with the flag again left reading no. -/
theorem processLoginResult_multi_failure_flag_no_cex :
    ((processLoginResult 5 envMulti ctxFix stEmpty arNone).1 =
        Except.error (ErrVal.msal (MsalErr.other "network_down")) ∧
      (processLoginResult 5 envMulti ctxFix stEmpty arNone).2.store.getItem
        AdjunctStorageKey.ADJUNCT_TOKEN_LOGIN_REQUIRED = some "no") ∧
    ((processLoginResult 5 envNullTok ctxFix stAbsent arNone).1 =
        Except.error ErrVal.typeError ∧
      (processLoginResult 5 envNullTok ctxFix stAbsent arNone).2.store.getItem
        AdjunctStorageKey.ADJUNCT_TOKEN_LOGIN_REQUIRED = some "no") := by
  decide

/-- Witness for the amended claim C1 at a concrete input: a provider
with no accounts makes processLoginResult fail with processLoginNoAccounts
and the flag does not read no; the trace begins with the pessimistic
write. -/
theorem processLoginResult_pessimistic_flag_amended_witness :
    (processLoginResult 1 envNoAcc ctxFix stEmpty arNone).1 =
        Except.error (ErrVal.auth AuthErr.processLoginNoAccounts) ∧
      (processLoginResult 1 envNoAcc ctxFix stEmpty arNone).2.store.getItem
          AdjunctStorageKey.ADJUNCT_TOKEN_LOGIN_REQUIRED ≠ some "no" ∧
      (∃ d, (processLoginResult 1 envNoAcc ctxFix stEmpty arNone).2.trace =
        stEmpty.trace ++
          Event.storeSet AdjunctStorageKey.ADJUNCT_TOKEN_LOGIN_REQUIRED "yes" :: d) :=
  ⟨by decide,
   (processLoginResult_pessimistic_flag_amended 0 envNoAcc ctxFix stEmpty arNone).2
     (ErrVal.auth AuthErr.processLoginNoAccounts) (by decide)
     (fun a sc r h => absurd h (by simp [envNoAcc, envMulti])) (by decide),
   (processLoginResult_pessimistic_flag_amended 0 envNoAcc ctxFix stEmpty arNone).1⟩

/-- Claim C2, counterexample to the claim as stated: with account A
stored and the loginRequired flag absent, login() does not clear the
session (the stored identifier survives) and performs no interactive
login (the only event is a silent token request), and
getToken(graph, forceLogin = true) does not delegate to login() but goes
straight to silent acquisition.  Absent is therefore treated as no, not
as yes. -/
theorem login_absent_flag_cex :
    (login 5 envMulti ctxFix stAbsent).2.store.getItem
        AdjunctStorageKey.ADJUNCT_ACCOUNT_HOMEACCOUNTID = some "A" ∧
      (login 5 envMulti ctxFix stAbsent).2.trace =
        [Event.acquireTokenSilent "A" ["openid"]] ∧
      (login 5 envMulti ctxFix stAbsent).1 =
        Except.error (ErrVal.msal (MsalErr.other "network_down")) ∧
      (getToken 5 envMulti ctxFix stAbsent TokenType.graph true).2.trace =
        [Event.acquireTokenSilent "A" ["User.Read"]] ∧
      (getToken 5 envMulti ctxFix stAbsent TokenType.graph true).1 =
        Except.error (ErrVal.msal (MsalErr.other "network_down")) := by
  decide

/-- Claim C2 (amended).  The claim as stated is refuted by
login_absent_flag_cex.  Amended property: an absent flag is trusted like
the value no: under the popup method, login() with an account present and
an absent flag is exactly the forced application-token fetch (no session
clearing, no interactive login), and getToken(t, forceLogin = true) with
an absent flag skips the login delegation and attempts silent acquisition
first. -/
theorem absent_flag_trusted_amended (fuel : Nat) (env : Env) (ctx : Settings) (s : St)
    (t : TokenType) (a : AccountInfo)
    (hm : ctx.signInMethod = SignInMethod.popup)
    (ha : getLoggedInAccount env s = some a)
    (hf : s.store.getItem AdjunctStorageKey.ADJUNCT_TOKEN_LOGIN_REQUIRED = none) :
    login (fuel + 2) env ctx s = getToken fuel env ctx s TokenType.app true ∧
    ∃ d, (getToken (fuel + 1) env ctx s t true).2.trace =
      s.trace ++ Event.acquireTokenSilent a.homeAccountId (requestScopeFor ctx t) :: d := by
  constructor
  · simp only [login, hm]
    simp only [loginPopup, ha, hf]
    rw [if_neg (by simp)]
  · exact getToken_silent_first fuel env ctx s t true a (by rw [hf]; simp) ha

/-- Witness for the amended claim C2 at a concrete input. -/
theorem absent_flag_trusted_amended_witness :
    login 7 envMulti ctxFix stAbsent = getToken 5 envMulti ctxFix stAbsent TokenType.app true ∧
    ∃ d, (getToken 6 envMulti ctxFix stAbsent TokenType.graph true).2.trace =
      stAbsent.trace ++
        Event.acquireTokenSilent accA.homeAccountId (requestScopeFor ctxFix TokenType.graph) :: d :=
  absent_flag_trusted_amended 5 envMulti ctxFix stAbsent TokenType.graph accA
    (by decide) (by decide) (by decide)

/-- Claim C3 (confirmed): with a stored active account whose silent
acquisition fails with the expired-token / interaction-required class,
getToken with forceLogin = false persists loginRequired = yes and then
rejects with the AuthenticationRequired taxonomy entry; the final state
records the storage write before the rejection is returned, and the flag
reads yes. -/
theorem getToken_expired_persists_yes_then_rejects (fuel : Nat) (env : Env) (ctx : Settings)
    (s : St) (t : TokenType) (a : AccountInfo)
    (ha : getLoggedInAccount env s = some a)
    (hs : env.silent a (requestScopeFor ctx t) =
      Except.error (MsalErr.interactionRequired GraphErrorCode.EXPIRED_TOKEN)) :
    getToken (fuel + 1) env ctx s t false =
      (Except.error (ErrVal.auth AuthErr.getTokenAuthenticationRequired),
       { store := s.store.setItem AdjunctStorageKey.ADJUNCT_TOKEN_LOGIN_REQUIRED "yes",
         trace := s.trace ++
           [Event.acquireTokenSilent a.homeAccountId (requestScopeFor ctx t),
            Event.storeSet AdjunctStorageKey.ADJUNCT_TOKEN_LOGIN_REQUIRED "yes"] }) ∧
    (getToken (fuel + 1) env ctx s t false).2.store.getItem
      AdjunctStorageKey.ADJUNCT_TOKEN_LOGIN_REQUIRED = some "yes" := by
  have h1 : getToken (fuel + 1) env ctx s t false =
      (Except.error (ErrVal.auth AuthErr.getTokenAuthenticationRequired),
       { store := s.store.setItem AdjunctStorageKey.ADJUNCT_TOKEN_LOGIN_REQUIRED "yes",
         trace := s.trace ++
           [Event.acquireTokenSilent a.homeAccountId (requestScopeFor ctx t),
            Event.storeSet AdjunctStorageKey.ADJUNCT_TOKEN_LOGIN_REQUIRED "yes"] }) := by
    simp only [getToken]
    rw [if_neg (by simp), ha]
    dsimp only
    rw [hs]
    dsimp only
    rw [if_neg (by decide), if_pos rfl, if_neg (by simp)]
    simp [St.set, St.event]
  refine ⟨h1, ?_⟩
  rw [h1]
  exact getItem_setItem_same _ _ _

/-- Witness for claim C3 at a concrete input. -/
theorem getToken_expired_witness :
    getToken 5 envExpired ctxFix stTrusted TokenType.graph false =
      (Except.error (ErrVal.auth AuthErr.getTokenAuthenticationRequired),
       { store := stTrusted.store.setItem AdjunctStorageKey.ADJUNCT_TOKEN_LOGIN_REQUIRED "yes",
         trace := stTrusted.trace ++
           [Event.acquireTokenSilent accA.homeAccountId (requestScopeFor ctxFix TokenType.graph),
            Event.storeSet AdjunctStorageKey.ADJUNCT_TOKEN_LOGIN_REQUIRED "yes"] }) ∧
    (getToken 5 envExpired ctxFix stTrusted TokenType.graph false).2.store.getItem
      AdjunctStorageKey.ADJUNCT_TOKEN_LOGIN_REQUIRED = some "yes" :=
  getToken_expired_persists_yes_then_rejects 4 envExpired ctxFix stTrusted TokenType.graph accA
    (by decide) (by decide)

/-- Claim C5 (confirmed): with a stored active account, a prior flag of
no, and silent acquisition failing with the missing-permission class,
getToken rejects with the MissingPermissionScope taxonomy entry for
either value of forceLogin, the store is left untouched (the flag still
reads no), and the only event is the silent request: no interactive
login is attempted. -/
theorem getToken_missing_permission_rejects (fuel : Nat) (env : Env) (ctx : Settings)
    (s : St) (t : TokenType) (fl : Bool) (a : AccountInfo)
    (ha : getLoggedInAccount env s = some a)
    (hflag : s.store.getItem AdjunctStorageKey.ADJUNCT_TOKEN_LOGIN_REQUIRED = some "no")
    (hs : env.silent a (requestScopeFor ctx t) =
      Except.error (MsalErr.interactionRequired GraphErrorCode.MISSING_PERMISSION)) :
    getToken (fuel + 1) env ctx s t fl =
      (Except.error (ErrVal.auth AuthErr.getTokenMissingPermissionScope),
       { store := s.store,
         trace := s.trace ++
           [Event.acquireTokenSilent a.homeAccountId (requestScopeFor ctx t)] }) ∧
    (getToken (fuel + 1) env ctx s t fl).2.store.getItem
      AdjunctStorageKey.ADJUNCT_TOKEN_LOGIN_REQUIRED = some "no" := by
  have h1 : getToken (fuel + 1) env ctx s t fl =
      (Except.error (ErrVal.auth AuthErr.getTokenMissingPermissionScope),
       { store := s.store,
         trace := s.trace ++
           [Event.acquireTokenSilent a.homeAccountId (requestScopeFor ctx t)] }) := by
    simp only [getToken]
    rw [if_neg (by rw [hflag]; simp), ha]
    dsimp only
    rw [hs]
    dsimp only
    rw [if_pos rfl]
    simp [St.event]
  refine ⟨h1, ?_⟩
  rw [h1]
  exact hflag

/-- Witness for claim C5 at a concrete input (forceLogin = true). -/
theorem getToken_missing_permission_witness :
    getToken 5 envMissing ctxFix stTrusted TokenType.graph true =
      (Except.error (ErrVal.auth AuthErr.getTokenMissingPermissionScope),
       { store := stTrusted.store,
         trace := stTrusted.trace ++
           [Event.acquireTokenSilent accA.homeAccountId (requestScopeFor ctxFix TokenType.graph)] }) ∧
    (getToken 5 envMissing ctxFix stTrusted TokenType.graph true).2.store.getItem
      AdjunctStorageKey.ADJUNCT_TOKEN_LOGIN_REQUIRED = some "no" :=
  getToken_missing_permission_rejects 4 envMissing ctxFix stTrusted TokenType.graph true accA
    (by decide) (by decide) (by decide)

/-- Claim C4 (confirmed): when the login result has no inline account
and the provider reports more than one account, processLoginResult
invokes the selection callback; a callback rejection is replaced by the
MultipleAccountSelectionFailed taxonomy entry (the raw error is not
propagated), and a resolved choice B leads to persisting the identifier
of B, setting B active with the provider, and attempting a confirming
silent application-token fetch for B, in that order. -/
theorem processLoginResult_multi_account_selection (fuel : Nat) (env : Env) (ctx : Settings)
    (s : St) (ar : AuthResult) (a b B : AccountInfo) (rest : List AccountInfo)
    (har : ar.account = none)
    (hacc : env.allAccounts = a :: b :: rest) :
    (∀ tag, env.callback (a :: b :: rest) = Except.error tag →
       processLoginResult (fuel + 1 + 1) env ctx s ar =
         (Except.error (ErrVal.auth AuthErr.processLoginMultipleAccountError),
          (s.set AdjunctStorageKey.ADJUNCT_TOKEN_LOGIN_REQUIRED "yes").event
            Event.multiAccountCallback)) ∧
    (env.callback (a :: b :: rest) = Except.ok B →
     env.accountById B.homeAccountId = some B →
     ∃ d, (processLoginResult (fuel + 1 + 1) env ctx s ar).2.trace =
       s.trace ++
         [Event.storeSet AdjunctStorageKey.ADJUNCT_TOKEN_LOGIN_REQUIRED "yes",
          Event.multiAccountCallback,
          Event.storeSet AdjunctStorageKey.ADJUNCT_ACCOUNT_HOMEACCOUNTID B.homeAccountId,
          Event.storeSet AdjunctStorageKey.ADJUNCT_TOKEN_LOGIN_REQUIRED "no",
          Event.setActiveAccount B.homeAccountId,
          Event.acquireTokenSilent B.homeAccountId ctx.appPermissions] ++ d) := by
  constructor
  · intro tag hcb
    simp only [processLoginResult, har, hacc, hcb]
  · intro hcb hid
    simp only [processLoginResult, har, hacc, hcb]
    have hla : getLoggedInAccount env
        ((((((s.set AdjunctStorageKey.ADJUNCT_TOKEN_LOGIN_REQUIRED "yes").event
          Event.multiAccountCallback).set AdjunctStorageKey.ADJUNCT_ACCOUNT_HOMEACCOUNTID
          B.homeAccountId).set AdjunctStorageKey.ADJUNCT_TOKEN_LOGIN_REQUIRED "no").event
          (Event.setActiveAccount B.homeAccountId))) = some B := by
      simp only [getLoggedInAccount, St.store_event, St.store_set]
      rw [getItem_setItem_ne _ _ _ _ (by decide), getItem_setItem_same]
      exact hid
    obtain ⟨d0, hd0⟩ := getToken_silent_first fuel env ctx
      ((((((s.set AdjunctStorageKey.ADJUNCT_TOKEN_LOGIN_REQUIRED "yes").event
        Event.multiAccountCallback).set AdjunctStorageKey.ADJUNCT_ACCOUNT_HOMEACCOUNTID
        B.homeAccountId).set AdjunctStorageKey.ADJUNCT_TOKEN_LOGIN_REQUIRED "no").event
        (Event.setActiveAccount B.homeAccountId))) TokenType.app false B (by simp) hla
    cases hgt : getToken (fuel + 1) env ctx
        ((((((s.set AdjunctStorageKey.ADJUNCT_TOKEN_LOGIN_REQUIRED "yes").event
          Event.multiAccountCallback).set AdjunctStorageKey.ADJUNCT_ACCOUNT_HOMEACCOUNTID
          B.homeAccountId).set AdjunctStorageKey.ADJUNCT_TOKEN_LOGIN_REQUIRED "no").event
          (Event.setActiveAccount B.homeAccountId))) TokenType.app false with
    | mk r s2 =>
      rw [hgt] at hd0
      dsimp only at hd0
      cases r with
      | ok tok =>
        cases hreg : registerAccount tok s2 with
        | error e2 =>
          refine ⟨d0, ?_⟩
          simp only [hreg]
          rw [hd0]
          simp [St.trace_set, St.trace_event, requestScopeFor, List.append_assoc]
        | ok s3 =>
          obtain ⟨d1, hd1⟩ :=
            traceExtends_trans (traceExtends_registerAccount tok s2 s3 hreg)
              (traceExtends_set s3 AdjunctStorageKey.ADJUNCT_TOKEN_LOGIN_REQUIRED "no")
          refine ⟨d0 ++ d1, ?_⟩
          simp only [hreg]
          rw [hd1, hd0]
          simp [St.trace_set, St.trace_event, requestScopeFor, List.append_assoc]
      | error e =>
        refine ⟨d0, ?_⟩
        dsimp only
        rw [hd0]
        simp [St.trace_set, St.trace_event, requestScopeFor, List.append_assoc]

/-- Witness for claim C4 at concrete inputs: a rejecting callback and a
callback resolving to account B. -/
theorem processLoginResult_multi_account_selection_witness :
    processLoginResult 2 envCbFail ctxFix stEmpty arNone =
      (Except.error (ErrVal.auth AuthErr.processLoginMultipleAccountError),
       (stEmpty.set AdjunctStorageKey.ADJUNCT_TOKEN_LOGIN_REQUIRED "yes").event
         Event.multiAccountCallback) ∧
    ∃ d, (processLoginResult 2 envMulti ctxFix stEmpty arNone).2.trace =
      stEmpty.trace ++
        [Event.storeSet AdjunctStorageKey.ADJUNCT_TOKEN_LOGIN_REQUIRED "yes",
         Event.multiAccountCallback,
         Event.storeSet AdjunctStorageKey.ADJUNCT_ACCOUNT_HOMEACCOUNTID accB.homeAccountId,
         Event.storeSet AdjunctStorageKey.ADJUNCT_TOKEN_LOGIN_REQUIRED "no",
         Event.setActiveAccount accB.homeAccountId,
         Event.acquireTokenSilent accB.homeAccountId ctxFix.appPermissions] ++ d :=
  ⟨(processLoginResult_multi_account_selection 0 envCbFail ctxFix stEmpty arNone
      accA accB accB [] (by decide) (by decide)).1 "boom" (by decide),
   (processLoginResult_multi_account_selection 0 envMulti ctxFix stEmpty arNone
      accA accB accB [] (by decide) (by decide)).2 (by decide) (by decide)⟩

/-- Claim C6 (confirmed): a batch of more than 20 sub-requests is
rejected with the BatchSizeExceeded taxonomy entry with the state
untouched (no token acquisition, no network call), while a batch of
exactly 20 passes the limit check and, with a working silent token, goes
on to acquire a token and perform the HTTP call to the batch endpoint. -/
theorem batch_limit_and_boundary (fuel : Nat) (env : Env) (ctx : Settings) (s : St)
    (br : BatchRequest) (fl : Bool) :
    (br.requests.length > 20 →
      Graph.batch fuel env ctx s br fl =
        (Except.error (ErrVal.graph GraphErr.batchRequestLimit), s)) ∧
    (∀ a tok, br.requests.length = 20 →
      getLoggedInAccount env s = some a →
      env.silent a ctx.graphPermissions = Except.ok tok →
      (Graph.batch (fuel + 1) env ctx s br false).2.trace =
        s.trace ++
          [Event.acquireTokenSilent a.homeAccountId ctx.graphPermissions,
           Event.storeSet AdjunctStorageKey.ADJUNCT_TOKEN_LOGIN_REQUIRED "no",
           Event.fetchCall (batchUrl ctx) "POST"]) := by
  constructor
  · intro h
    simp only [Graph.batch]
    rw [if_pos h]
  · intro a tok hlen hla hsi
    simp only [Graph.batch]
    rw [if_neg (by omega)]
    simp only [Graph.call]
    have hg : getToken (fuel + 1) env ctx s TokenType.graph false =
        (Except.ok tok,
         (s.event (Event.acquireTokenSilent a.homeAccountId ctx.graphPermissions)).set
           AdjunctStorageKey.ADJUNCT_TOKEN_LOGIN_REQUIRED "no") := by
      simp only [getToken]
      rw [if_neg (by simp), hla]
      dsimp only [requestScopeFor]
      rw [hsi]
    rw [hg]
    dsimp only
    cases hfe : env.fetch
        { url := batchUrl ctx, method := "POST", body := some br } with
    | error tag =>
      simp [St.trace_event, St.trace_set, List.append_assoc]
    | ok p =>
      cases p with
      | mk status body =>
        dsimp only
        by_cases h200 : status = 200
        · rw [if_pos h200]
          simp [St.trace_event, St.trace_set, List.append_assoc]
        · rw [if_neg h200]
          cases body.errorCode with
          | none => simp [St.trace_event, St.trace_set, List.append_assoc]
          | some c =>
            dsimp only
            split_ifs <;> simp [St.trace_event, St.trace_set, List.append_assoc]

/-- Witness for claim C6 at concrete inputs: 21 and 20 sub-requests. -/
theorem batch_limit_and_boundary_witness :
    Graph.batch 5 envOk ctxFix stTrusted br21 false =
      (Except.error (ErrVal.graph GraphErr.batchRequestLimit), stTrusted) ∧
    (Graph.batch 5 envOk ctxFix stTrusted br20 false).2.trace =
      stTrusted.trace ++
        [Event.acquireTokenSilent accA.homeAccountId ctxFix.graphPermissions,
         Event.storeSet AdjunctStorageKey.ADJUNCT_TOKEN_LOGIN_REQUIRED "no",
         Event.fetchCall (batchUrl ctxFix) "POST"] :=
  ⟨(batch_limit_and_boundary 5 envOk ctxFix stTrusted br21 false).1 (by decide),
   (batch_limit_and_boundary 4 envOk ctxFix stTrusted br20 false).2 accA tokA
     (by decide) (by decide) (by decide)⟩

/-- Claim C7 (code bug): the response classification of Graph.call maps
the provider code ErrorAccessDenied to the request-denied taxonomy entry
while accessDenied maps to the access-denied entry, so the two
access-denied spellings do not map to the same entry as the claim and
the visible intent of the enum names state. -/
theorem call_access_denied_spellings_diverge :
    (Graph.call 3 (envWithFetchCode "ErrorAccessDenied") ctxFix stTrusted reqFix false).1 =
        Except.error (ErrVal.graph GraphErr.getRequestDenied) ∧
      (Graph.call 3 (envWithFetchCode "accessDenied") ctxFix stTrusted reqFix false).1 =
        Except.error (ErrVal.graph GraphErr.getAccessDenied) ∧
      (Graph.call 3 (envWithFetchCode "Authorization_RequestDenied") ctxFix stTrusted reqFix false).1 =
        Except.error (ErrVal.graph GraphErr.getRequestDenied) ∧
      GraphErr.getRequestDenied ≠ GraphErr.getAccessDenied ∧
      GraphErr.code GraphErr.getRequestDenied ≠ GraphErr.code GraphErr.getAccessDenied := by
  decide

/-- Claim C8, counterexample to the claim as stated: when the
underlying batch HTTP call fails, the overall signIn() promise does
reject, but with the TypeError raised by reading the responses member of
the undefined batch result, not with the batch-call failure itself,
because the catch clause of batch() drops its failure (missing return). -/
theorem signIn_batch_failure_cex :
    (Graph.call 9 envOk ctxFix stAfterLogin
        { url := batchUrl ctxFix, method := "POST", body := some profileBatchRequest } false).1 =
      Except.error (ErrVal.wrappedGraph (ErrVal.exn "netdown") GraphErr.getUnknownError) ∧
    login 9 envOk ctxFix appTrusted.st = (Except.ok tokA, stAfterLogin) ∧
    (signIn 9 envOk ctxFix appTrusted).1 = Except.error ErrVal.typeError ∧
    ErrVal.typeError ≠ ErrVal.wrappedGraph (ErrVal.exn "netdown") GraphErr.getUnknownError := by
  decide

/-- Claim C8 (amended).  The claim as stated is refuted by
signIn_batch_failure_cex.  Amended property: for every failure of the
profile-and-photo batch call performed during signIn() after a
successful login, signIn() rejects rather than resolving, but the
rejection value is the TypeError produced by reading the responses
member of the undefined batch result, since batch() swallows the inner
failure. -/
theorem signIn_batch_failure_amended (fuel : Nat) (env : Env) (ctx : Settings) (a : AppSt)
    (r : AuthResult) (st : St) (ce : ErrVal)
    (hsc : includesScope scopesUserProfile ctx.graphPermissions = true)
    (hl : login fuel env ctx a.st = (Except.ok r, st))
    (hc : (Graph.call fuel env ctx st
        { url := batchUrl ctx, method := "POST", body := some profileBatchRequest } false).1 =
      Except.error ce) :
    (signIn fuel env ctx a).1 = Except.error ErrVal.typeError := by
  simp only [signIn]
  rw [hl]
  dsimp only
  simp only [setUserProfile]
  rw [if_pos hsc]
  cases hroles : ({ a with st := st } : AppSt).st.store.getItem
      AdjunctStorageKey.ADJUNCT_ACCOUNT_ROLES with
  | none =>
    dsimp only
    simp only [Graph.batch]
    rw [if_neg (by decide)]
    cases hcall : Graph.call fuel env ctx st
        { url := batchUrl ctx, method := "POST", body := some profileBatchRequest } false with
    | mk res s2 =>
      rw [hcall] at hc
      cases res with
      | ok b => exact absurd hc (by simp)
      | error e2 => rfl
  | some rolesStr =>
    dsimp only
    simp only [Graph.batch]
    rw [if_neg (by decide)]
    cases hcall : Graph.call fuel env ctx st
        { url := batchUrl ctx, method := "POST", body := some profileBatchRequest } false with
    | mk res s2 =>
      rw [hcall] at hc
      cases res with
      | ok b => exact absurd hc (by simp)
      | error e2 => rfl

/-- Witness for the amended claim C8 at a concrete input. -/
theorem signIn_batch_failure_amended_witness :
    (signIn 9 envOk ctxFix appTrusted).1 = Except.error ErrVal.typeError :=
  signIn_batch_failure_amended 9 envOk ctxFix appTrusted tokA stAfterLogin
    (ErrVal.wrappedGraph (ErrVal.exn "netdown") GraphErr.getUnknownError)
    (by decide) (by decide) (by decide)

/-- Claim C9 (confirmed): getValidEndPoint joins the fixed base and
version prefix to the endpoint with exactly one separator: an endpoint
without a leading separator gets one inserted, and the same endpoint
with a leading separator resolves to the same URL. -/
theorem getValidEndPoint_single_separator (ctx : Settings) (ep : String)
    (h : ¬ ep.data.head? = some '/') :
    getValidEndPoint ctx ep =
        URL.GRAPH_API_BASE ++ "/" ++ ctx.graphVersion ++ "/" ++ ep ∧
      getValidEndPoint ctx ("/" ++ ep) =
        URL.GRAPH_API_BASE ++ "/" ++ ctx.graphVersion ++ "/" ++ ep := by
  constructor
  · simp only [getValidEndPoint]
    rw [if_neg h]
  · have hdata : ("/" ++ ep).data = '/' :: ep.data := by
      rw [String.data_append]
      rfl
    simp only [getValidEndPoint]
    rw [if_pos (by rw [hdata]; rfl)]
    rw [← String.append_assoc]

/-- Witness for claim C9: get(me) and get(/me) both resolve to the
same URL base/v1.0/me. -/
theorem getValidEndPoint_single_separator_witness :
    getValidEndPoint ctxFix "me" = "https://graph.microsoft.com/v1.0/me" ∧
      getValidEndPoint ctxFix "/me" = "https://graph.microsoft.com/v1.0/me" := by
  have h := getValidEndPoint_single_separator ctxFix "me" (by decide)
  refine ⟨by rw [h.1]; rfl, ?_⟩
  rw [show ("/me" : String) = "/" ++ "me" from rfl, h.2]
  rfl

/-- Claim C10 (confirmed): whenever the persisted loginRequired flag is
not exactly the string no (absent, yes, or anything else), the Appoint
facade getToken rejects with the notLoggedIn taxonomy entry and returns
the state unchanged, so neither the inner Authentication.getToken nor
any provider call is reached; in particular the forceLogin recovery path
of the inner getToken is unreachable through this facade when the flag
reads yes. -/
theorem appointGetToken_requires_flag_no (fuel : Nat) (env : Env) (ctx : Settings)
    (a : AppSt) (t : TokenType) (fl : Bool)
    (h : ¬ a.st.store.getItem AdjunctStorageKey.ADJUNCT_TOKEN_LOGIN_REQUIRED = some "no") :
    appointGetToken fuel env ctx a t fl =
      (Except.error (ErrVal.appoint AppointErr.notLoggedIn), a) := by
  simp only [appointGetToken]
  rw [if_neg h]

/-- Witness for claim C10 at concrete inputs: flag yes and flag
absent. -/
theorem appointGetToken_requires_flag_no_witness :
    appointGetToken 5 envOk ctxFix appYes TokenType.graph true =
        (Except.error (ErrVal.appoint AppointErr.notLoggedIn), appYes) ∧
      appointGetToken 5 envOk ctxFix
          { st := stAbsent, userInfo := none, userPhoto := none, userRoles := [] }
          TokenType.app false =
        (Except.error (ErrVal.appoint AppointErr.notLoggedIn),
         { st := stAbsent, userInfo := none, userPhoto := none, userRoles := [] }) :=
  ⟨appointGetToken_requires_flag_no 5 envOk ctxFix appYes TokenType.graph true (by decide),
   appointGetToken_requires_flag_no 5 envOk ctxFix
     { st := stAbsent, userInfo := none, userPhoto := none, userRoles := [] }
     TokenType.app false (by decide)⟩
